import Mathlib

/-!
Verification of the agent-analysis toolkit (All-Hands-AI/agent-analysis).

The repository's notebooks (src/notebooks/performance_gap.ipynb,
src/notebooks/patch_quality.ipynb) call into an `analysis` package whose
source is not part of the artifact; where a claim depends on that package
the corresponding definition below is modelled from the specification
(doc comments starting `Modelled from the spec:`).  Everything taken from
the notebooks themselves is translated directly from their cells.
-/

namespace AgentAnalysis

/-- A benchmark task.  Spec §3: "a benchmark task identified by a unique
string ID; carries repository reference, problem statement, golden patch,
and test specification". -/
structure BenchInstance where
  instance_id : String
  repo : String
  problem_statement : String
  gold_patch : String
  test_spec : String
deriving DecidableEq

/-- An agent/model under evaluation.  Spec §3: "has metadata (name,
identifier) and a Results set: the set of instance IDs it resolved". -/
structure System where
  name : String
  resolved : Finset String
deriving DecidableEq

/-- Top-level container.  Spec §3: "mapping from system name to System,
plus the Dataset".  The mapping is kept as an association list so that
insertion order (used for stable tie-breaking and first-match lookup) is
part of the model. -/
structure Data where
  systems : List (String × System)
  dataset : List BenchInstance

/-- Number of instances a system resolved. -/
def resolvedCount (s : System) : ℕ := s.resolved.card

/-- Modelled from the spec: `top_performers(systems, k)` from
`analysis/performance_gap.py` (not under src/) "returns the k systems with
the highest count of resolved instances, ties broken by a stable secondary
order (insertion/name order)".  Modelled as the k-prefix of a stable
descending sort by resolved count. -/
def sortedByResolved (systems : List System) : List System :=
  systems.mergeSort (fun a b => decide (resolvedCount b ≤ resolvedCount a))

/-- Modelled from the spec: the k top performers are the first k entries of
the stable descending sort. -/
def top_performers (systems : List System) (k : ℕ) : List System :=
  (sortedByResolved systems).take k

/-- How many of the targets resolved instance `i`. -/
def targetCount (targets : List System) (i : String) : ℕ :=
  targets.countP (fun t => decide (i ∈ t.resolved))

/-- Union of the targets' resolved sets: every instance some target
resolved. -/
def candidatePool (targets : List System) : Finset String :=
  targets.foldr (fun t acc => t.resolved ∪ acc) ∅

/-- Modelled from the spec: `unresolved_instances(source, targets,
threshold)` from `analysis/performance_gap.py` (not under src/) "returns
the set of instance IDs resolved by at least `threshold` of the target
systems but NOT resolved by the source system", the pure set computation
`{ i : count(t in targets : i in t.resolved) >= threshold } −
source.resolved`. -/
def unresolved_instances (source : System) (targets : List System)
    (threshold : ℕ) : Finset String :=
  ((candidatePool targets).filter
    (fun i => threshold ≤ targetCount targets i)) \ source.resolved

lemma mem_candidatePool (targets : List System) (i : String) :
    i ∈ candidatePool targets ↔ ∃ t ∈ targets, i ∈ t.resolved := by
  induction targets with
  | nil => simp [candidatePool]
  | cons t ts ih =>
      simp [candidatePool] at ih ⊢
      rw [ih]

lemma mem_unresolved_instances (source : System) (targets : List System)
    (threshold : ℕ) (hpos : 0 < threshold) (i : String) :
    i ∈ unresolved_instances source targets threshold ↔
      threshold ≤ targetCount targets i ∧ i ∉ source.resolved := by
  unfold unresolved_instances
  rw [Finset.mem_sdiff, Finset.mem_filter]
  constructor
  · rintro ⟨⟨_, hc⟩, hs⟩
    exact ⟨hc, hs⟩
  · rintro ⟨hc, hs⟩
    refine ⟨⟨?_, hc⟩, hs⟩
    have hcount : 0 < targetCount targets i := lt_of_lt_of_le hpos hc
    rw [targetCount, List.countP_pos_iff] at hcount
    obtain ⟨t, ht, hmem⟩ := hcount
    rw [mem_candidatePool]
    exact ⟨t, ht, of_decide_eq_true hmem⟩

/-- Source system of the worked example in the spec: resolves {A}. -/
def exSource : System := ⟨"source", {"A"}⟩

/-- Target T1 of the worked example: resolves {A, B}. -/
def exT1 : System := ⟨"T1", {"A", "B"}⟩

/-- Target T2 of the worked example: resolves {B, C}. -/
def exT2 : System := ⟨"T2", {"B", "C"}⟩

/-- C1: for every source, targets and positive threshold,
`unresolved_instances` returns exactly the set of instance IDs resolved by
at least `threshold` targets minus the source's resolved set; and on the
worked example (source resolves {A}, T1 resolves {A,B}, T2 resolves
{B,C}) the result is {B, C} at threshold 1 and {B} at threshold 2. -/
theorem unresolved_instances_spec (source : System) (targets : List System)
    (threshold : ℕ) (hpos : 0 < threshold) :
    (∀ i : String,
        i ∈ unresolved_instances source targets threshold ↔
          threshold ≤ targetCount targets i ∧ i ∉ source.resolved) ∧
      unresolved_instances exSource [exT1, exT2] 1 = {"B", "C"} ∧
      unresolved_instances exSource [exT1, exT2] 2 = {"B"} := by
  refine ⟨fun i => mem_unresolved_instances source targets threshold hpos i,
    ?_, ?_⟩ <;> decide

/-- Witness for C1: the characterization applied at threshold 2 and
instance B of the worked example. -/
theorem unresolved_instances_spec_witness :
    ("B" ∈ unresolved_instances exSource [exT1, exT2] 2 ↔
        2 ≤ targetCount [exT1, exT2] "B" ∧ "B" ∉ exSource.resolved) ∧
      unresolved_instances exSource [exT1, exT2] 1 = {"B", "C"} := by
  have h := unresolved_instances_spec exSource [exT1, exT2] 2 (by decide)
  exact ⟨h.1 "B", h.2.1⟩

/-- C4: `unresolved_instances` is antitone in the threshold: raising the
threshold can only shrink the result. -/
theorem unresolved_instances_antitone (source : System)
    (targets : List System) (t1 t2 : ℕ) (h12 : t1 ≤ t2) :
    unresolved_instances source targets t2 ⊆
      unresolved_instances source targets t1 := by
  intro i hi
  unfold unresolved_instances at hi ⊢
  rw [Finset.mem_sdiff, Finset.mem_filter] at hi ⊢
  exact ⟨⟨hi.1.1, le_trans h12 hi.1.2⟩, hi.2⟩

/-- Witness for C4: on the worked example, the threshold-2 result is
contained in the threshold-1 result. -/
theorem unresolved_instances_antitone_witness :
    unresolved_instances exSource [exT1, exT2] 2 ⊆
      unresolved_instances exSource [exT1, exT2] 1 :=
  unresolved_instances_antitone exSource [exT1, exT2] 1 2 (by decide)

/-- C5: a threshold exceeding the number of targets is not an error and is
not clamped: the result is simply empty, because no instance can be
resolved by more targets than there are. -/
theorem unresolved_instances_threshold_unsat (source : System)
    (targets : List System) :
    unresolved_instances source targets (targets.length + 1) = ∅ := by
  rw [Finset.eq_empty_iff_forall_not_mem]
  intro i hi
  unfold unresolved_instances at hi
  rw [Finset.mem_sdiff, Finset.mem_filter] at hi
  have hle : targetCount targets i ≤ targets.length :=
    List.countP_le_length _
  omega

lemma resolvedLe_trans (a b c : System)
    (hab : decide (resolvedCount b ≤ resolvedCount a) = true)
    (hbc : decide (resolvedCount c ≤ resolvedCount b) = true) :
    decide (resolvedCount c ≤ resolvedCount a) = true := by
  simp only [decide_eq_true_eq] at hab hbc ⊢
  exact le_trans hbc hab

lemma resolvedLe_total (a b : System) :
    (decide (resolvedCount b ≤ resolvedCount a) ||
      decide (resolvedCount a ≤ resolvedCount b)) = true := by
  simp only [Bool.or_eq_true, decide_eq_true_eq]
  exact (Nat.le_total (resolvedCount b) (resolvedCount a))

/-- First system of the top-performers example: resolves {A, B, C}. -/
def exS1 : System := ⟨"S1", {"A", "B", "C"}⟩

/-- Second system of the top-performers example: resolves {A}. -/
def exS2 : System := ⟨"S2", {"A"}⟩

/-- Third system of the top-performers example: also resolves one
instance, tying with S2. -/
def exS3 : System := ⟨"S3", {"B"}⟩

/-- C2: `top_performers(systems, k)` returns exactly `min k
systems.length` systems, drawn from the input (the underlying sorted list
is a permutation of the input), ordered by resolved count descending,
with ties kept in their original (insertion) order, and repeated calls
coincide. -/
theorem top_performers_spec (systems : List System) (k : ℕ) :
    (top_performers systems k).length = min k systems.length ∧
      (top_performers systems k).Pairwise
        (fun a b => resolvedCount b ≤ resolvedCount a) ∧
      (top_performers systems k).Sublist (sortedByResolved systems) ∧
      (sortedByResolved systems).Perm systems ∧
      (∀ a b : System, resolvedCount a = resolvedCount b →
        [a, b].Sublist systems → [a, b].Sublist (sortedByResolved systems)) ∧
      top_performers systems k = top_performers systems k := by
  refine ⟨?_, ?_, ?_, ?_, ?_, rfl⟩
  · rw [top_performers, List.length_take, sortedByResolved,
      List.length_mergeSort]
  · have hs := List.sorted_mergeSort resolvedLe_trans resolvedLe_total systems
    have hsub : (top_performers systems k).Sublist (sortedByResolved systems) :=
      List.take_sublist _ _
    refine (List.Pairwise.sublist hsub hs).imp ?_
    intro a b h
    exact of_decide_eq_true h
  · exact List.take_sublist _ _
  · exact List.mergeSort_perm systems _
  · intro a b heq hsub
    exact List.pair_sublist_mergeSort resolvedLe_trans resolvedLe_total
      (by simp [heq]) hsub

/-- Witness for C2: on a concrete three-system list with a tie between S2
and S3, taking the top 2 yields a list of length 2 and the tie keeps its
input order in the sorted list. -/
theorem top_performers_spec_witness :
    (top_performers [exS1, exS2, exS3] 2).length = min 2 3 ∧
      [exS2, exS3].Sublist (sortedByResolved [exS1, exS2, exS3]) := by
  have h := top_performers_spec [exS1, exS2, exS3] 2
  exact ⟨h.1, h.2.2.2.2.1 exS2 exS3 (by decide) (by decide)⟩

/-- One iteration's resource-usage sample.  Spec §3: "resource usage
samples (prompt tokens, completion tokens, response latency) per
iteration"; latency may be undefined. -/
structure ResourceUsage where
  prompt_tokens : ℕ
  completion_tokens : ℕ
  response_latency : Option ℚ
deriving DecidableEq

/-- The patch a system emitted for one instance, as the set of files it
touches (what the file-overlap extractors consume after parsing the patch
text). -/
structure Patch where
  touchedFiles : List String
deriving DecidableEq

/-- Per-instance record of what a system did.  Spec §3: "emitted patch
text, per-iteration trajectory, resource usage samples ... per
iteration". -/
structure EvaluationOutput where
  patch : Patch
  iterations : List ResourceUsage

/-- Option-valued addition: the sum of two latencies is defined only when
both are. -/
def addLatency : Option ℚ → Option ℚ → Option ℚ
  | some a, some b => some (a + b)
  | _, _ => none

/-- Accumulate one iteration's usage into the running totals. -/
def accumulateUsage (acc : ResourceUsage) (u : ResourceUsage) :
    ResourceUsage :=
  { prompt_tokens := acc.prompt_tokens + u.prompt_tokens
    completion_tokens := acc.completion_tokens + u.completion_tokens
    response_latency := addLatency acc.response_latency u.response_latency }

/-- Modelled from the spec: `total_resource_usage(evaluation_output)` from
`analysis/usage.py` (not under src/) "sums prompt tokens, completion
tokens, and (if defined) latency across all iterations of one instance's
run", modelled as a left fold over the iterations. -/
def total_resource_usage (e : EvaluationOutput) : ResourceUsage :=
  e.iterations.foldl accumulateUsage ⟨0, 0, some 0⟩

lemma foldl_accumulateUsage (l : List ResourceUsage) :
    ∀ acc : ResourceUsage,
      (l.foldl accumulateUsage acc).prompt_tokens =
          acc.prompt_tokens + (l.map (fun u => u.prompt_tokens)).sum ∧
        (l.foldl accumulateUsage acc).completion_tokens =
          acc.completion_tokens +
            (l.map (fun u => u.completion_tokens)).sum ∧
        (l.foldl accumulateUsage acc).response_latency =
          (l.map (fun u => u.response_latency)).foldl addLatency
            acc.response_latency := by
  induction l with
  | nil => intro acc; simp
  | cons u us ih =>
      intro acc
      obtain ⟨h1, h2, h3⟩ := ih (accumulateUsage acc u)
      simp only [List.foldl_cons, List.map_cons, List.sum_cons]
      refine ⟨?_, ?_, ?_⟩
      · rw [h1]; simp only [accumulateUsage]; omega
      · rw [h2]; simp only [accumulateUsage]; omega
      · rw [h3]; rfl

lemma foldl_addLatency_some (ls : List ℚ) :
    ∀ q : ℚ, (ls.map some).foldl addLatency (some q) = some (q + ls.sum) := by
  induction ls with
  | nil => intro q; simp [addLatency]
  | cons x xs ih =>
      intro q
      simp only [List.map_cons, List.foldl_cons, addLatency, List.sum_cons]
      rw [ih (q + x)]
      ring_nf

/-- Evaluation output of the worked example: two iterations with
(100, 50) and (200, 75) prompt/completion tokens. -/
def exUsageOutput : EvaluationOutput :=
  ⟨⟨[]⟩, [⟨100, 50, none⟩, ⟨200, 75, none⟩]⟩

/-- C7: `total_resource_usage` returns the per-field sums of prompt and
completion tokens over all iterations, the latency total is the sum of
the per-iteration latencies whenever those are all defined, and on the
worked example with iterations (100, 50) and (200, 75) the totals are
(300, 125). -/
theorem total_resource_usage_spec (e : EvaluationOutput) (ls : List ℚ) :
    (total_resource_usage e).prompt_tokens =
        (e.iterations.map (fun u => u.prompt_tokens)).sum ∧
      (total_resource_usage e).completion_tokens =
        (e.iterations.map (fun u => u.completion_tokens)).sum ∧
      (e.iterations.map (fun u => u.response_latency) = ls.map some →
        (total_resource_usage e).response_latency = some ls.sum) ∧
      (total_resource_usage exUsageOutput).prompt_tokens = 300 ∧
      (total_resource_usage exUsageOutput).completion_tokens = 125 := by
  obtain ⟨h1, h2, h3⟩ := foldl_accumulateUsage e.iterations ⟨0, 0, some 0⟩
  refine ⟨?_, ?_, ?_, by decide, by decide⟩
  · rw [total_resource_usage, h1, Nat.zero_add]
  · rw [total_resource_usage, h2, Nat.zero_add]
  · intro hdef
    rw [total_resource_usage, h3, hdef, foldl_addLatency_some ls 0,
      zero_add]

/-- Witness for C7: applied to a concrete two-iteration output whose
latencies are 1 and 2, the latency total is 3. -/
theorem total_resource_usage_spec_witness :
    (total_resource_usage ⟨⟨[]⟩, [⟨100, 50, some 1⟩, ⟨200, 75, some 2⟩]⟩
        ).response_latency = some ((3 : ℚ)) := by
  have h := total_resource_usage_spec
    ⟨⟨[]⟩, [⟨100, 50, some 1⟩, ⟨200, 75, some 2⟩]⟩ [1, 2]
  have h3 := h.2.2.1 (by rfl)
  rw [h3]
  norm_num

/-- A feature-table cell: a computed rational value, or `none`, the
missing-value marker the spec requires to be distinct from any real
number (in particular from a real computed zero). -/
abbrev Cell := Option ℚ

/-- A metric extractor.  Spec §4.1: "a pure function: (instance,
evaluation_output) -> value"; a failing extractor reports the
missing-value marker instead of raising, so the result type is `Cell`. -/
abbrev Extractor := BenchInstance → EvaluationOutput → Cell

/-- Modelled from the spec: the file-overlap patch metric (family
"file_match"/"file_precision" of `analysis/features/metrics`, not under
src/): the fraction of the emitted patch's touched files that also occur
in the gold patch; on a patch with zero touched files it reports the
missing-value marker, not zero. -/
def file_overlap (goldFiles : List String) (emitted : Patch) : Cell :=
  if emitted.touchedFiles.isEmpty then none
  else
    some ((emitted.touchedFiles.countP
        (fun f => decide (f ∈ goldFiles)) : ℚ) / emitted.touchedFiles.length)

/-- One row of the feature table: every registered extractor applied to
the same (instance, evaluation output) pair; a failing extractor
contributes its missing marker, the rest of the row is still produced. -/
def buildRow (extractors : List Extractor) (inst : BenchInstance)
    (out : EvaluationOutput) : List Cell :=
  extractors.map (fun ex => ex inst out)

/-- C3: a failing extractor yields the missing marker for its own cell
only — the row still has one cell per registered extractor — and the
missing marker is distinct from a computed zero: on a patch with zero
touched files `file_overlap` reports the marker, which differs from
`some 0`, so no extraction failure is ever indistinguishable from a real
zero. -/
theorem extractor_missing_marker_spec (extractors : List Extractor)
    (inst : BenchInstance) (out : EvaluationOutput)
    (goldFiles : List String) (p : Patch) (hempty : p.touchedFiles = []) :
    (buildRow extractors inst out).length = extractors.length ∧
      file_overlap goldFiles p = none ∧
      file_overlap goldFiles p ≠ some 0 := by
  have hfo : file_overlap goldFiles p = none := by
    rw [file_overlap, hempty]
    rfl
  exact ⟨List.length_map _ _, hfo, by rw [hfo]; exact Option.noConfusion⟩

/-- A concrete instance used by the closed witnesses below. -/
def exInstance : BenchInstance :=
  ⟨"inst-1", "repo", "problem", "gold", "tests"⟩

/-- Witness for C3: with the file-overlap extractor registered and an
evaluation output whose patch touches no files, the row has one cell and
the overlap cell is the marker, not zero. -/
theorem extractor_missing_marker_spec_witness :
    (buildRow [fun _ out => file_overlap ["a.py"] out.patch] exInstance
        ⟨⟨[]⟩, []⟩).length = 1 ∧
      file_overlap ["a.py"] ⟨[]⟩ = none ∧
      file_overlap ["a.py"] ⟨[]⟩ ≠ some 0 :=
  extractor_missing_marker_spec
    [fun _ out => file_overlap ["a.py"] out.patch] exInstance ⟨⟨[]⟩, []⟩
    ["a.py"] ⟨[]⟩ rfl

/-- One row of the persisted feature table: join keys plus one cell per
metric.  Spec §3: "a mapping from metric name to a numeric/categorical
value, plus the instance ID and system identifier as join keys". -/
structure FeatureRow where
  system_name : String
  instance_id : String
  cells : List Cell

/-- Modelled from the spec: the Feature Table Builder (§4.2, not under
src/) "iterates the cross product of (system, instance) present in the
loaded Data, invoking every registered extractor for each pair", with the
per-pair evaluation outputs supplied by `evals` (system name × instance
ID). -/
def buildFeatureTable (extractors : List Extractor)
    (evals : String → String → EvaluationOutput) (d : Data) :
    List FeatureRow :=
  (d.systems.map (fun p =>
    d.dataset.map (fun inst =>
      FeatureRow.mk p.1 inst.instance_id
        (buildRow extractors inst (evals p.1 inst.instance_id))))).flatten

/-- Render one cell for the persisted CSV: missing cells are empty
fields, never a number. -/
def cellToString : Cell → String
  | none => ""
  | some q => toString q

/-- Render one feature row as a CSV line. -/
def rowToString (r : FeatureRow) : String :=
  String.intercalate ","
    (r.system_name :: r.instance_id :: r.cells.map cellToString)

/-- Render the whole feature table as the bytes of the output file. -/
def renderCSV (rows : List FeatureRow) : String :=
  String.intercalate "\n" (rows.map rowToString)

/-- C6: the builder's persisted output is a deterministic function of its
persisted inputs: two runs given equal extractors, equal evaluation
outputs and equal Data render byte-identical CSV text — the model has no
randomness and no wall-clock dependence. -/
theorem buildFeatureTable_deterministic (extractors : List Extractor)
    (evals : String → String → EvaluationOutput) (d₁ d₂ : Data)
    (h : d₁ = d₂) :
    renderCSV (buildFeatureTable extractors evals d₁) =
      renderCSV (buildFeatureTable extractors evals d₂) := by
  rw [h]

/-- Witness for C6: two runs on the same concrete one-system, one-instance
input render identical output. -/
theorem buildFeatureTable_deterministic_witness :
    renderCSV (buildFeatureTable
        [fun _ out => file_overlap ["a.py"] out.patch]
        (fun _ _ => ⟨⟨["a.py"]⟩, []⟩)
        ⟨[("S1", exS1)], [exInstance]⟩) =
      renderCSV (buildFeatureTable
        [fun _ out => file_overlap ["a.py"] out.patch]
        (fun _ _ => ⟨⟨["a.py"]⟩, []⟩)
        ⟨[("S1", exS1)], [exInstance]⟩) :=
  buildFeatureTable_deterministic
    [fun _ out => file_overlap ["a.py"] out.patch]
    (fun _ _ => ⟨⟨["a.py"]⟩, []⟩)
    ⟨[("S1", exS1)], [exInstance]⟩ ⟨[("S1", exS1)], [exInstance]⟩ rfl

/-- Modelled from the spec: `Data.closest_system(name)` from
`analysis/models/data.py` (not under src/) returns the key of the system
in the mapping whose metadata name matches the given name (the notebooks
use it to look up "the system matching the name OpenHands"). -/
def closest_system (d : Data) (query : String) : Option String :=
  (d.systems.find? (fun p => p.2.name == query)).map (fun p => p.1)

/-- Indexing the systems mapping by key, first match in insertion
order. -/
def lookupSystem (d : Data) (k : String) : Option System :=
  (d.systems.find? (fun p => p.1 == k)).map (fun p => p.2)

/-- The source system of the gap analysis, translated from the
performance_gap notebook cell
`source = data.systems[data.closest_system("OpenHands")]`: the queried
name is the fixed constant "OpenHands", not a parameter. -/
def notebookSource (d : Data) : Option System :=
  (closest_system d "OpenHands").bind (fun k => lookupSystem d k)

lemma find?_key_of_nodup (l : List (String × System))
    (hnodup : (l.map Prod.fst).Nodup) (p : String × System) (hp : p ∈ l) :
    l.find? (fun q => q.1 == p.1) = some p := by
  induction l with
  | nil => cases hp
  | cons q qs ih =>
      rw [List.map_cons, List.nodup_cons] at hnodup
      rcases List.mem_cons.mp hp with heq | hmem
      · subst heq
        exact List.find?_cons_of_pos _ (by simp)
      · have hne : (q.1 == p.1) = false := by
          rw [beq_eq_false_iff_ne]
          intro hkey
          exact hnodup.1 (hkey ▸ List.mem_map_of_mem Prod.fst hmem)
        rw [List.find?_cons_of_neg _ (by simp [hne])]
        exact ih hnodup.2 hmem

/-- C8: the gap analysis's source system is fixed: for every loaded Data
with distinct system keys, whatever system `notebookSource` selects is
the one whose name is "OpenHands" — the notebook hardcodes the query and
takes no source parameter. -/
theorem notebook_source_is_openhands (d : Data) (s : System)
    (hnodup : (d.systems.map Prod.fst).Nodup)
    (h : notebookSource d = some s) : s.name = "OpenHands" := by
  rw [notebookSource, closest_system] at h
  cases hfind : d.systems.find? (fun p => p.2.name == "OpenHands") with
  | none => rw [hfind] at h; cases h
  | some pr =>
      rw [hfind] at h
      have h2 : lookupSystem d pr.1 = some s := h
      have hname := List.find?_some hfind
      have hmem : pr ∈ d.systems := List.mem_of_find?_eq_some hfind
      have hlook : lookupSystem d pr.1 = some pr.2 := by
        rw [lookupSystem, find?_key_of_nodup d.systems hnodup pr hmem]
        rfl
      rw [hlook] at h2
      cases h2
      exact eq_of_beq hname

/-- The one-system Data used by the closed witness for C8. -/
def exOpenHandsData : Data :=
  ⟨[("OpenHands", ⟨"OpenHands", {"A"}⟩)], []⟩

/-- Witness for C8: on a concrete Data whose single system is named
"OpenHands", the selected source is indeed named "OpenHands". -/
theorem notebook_source_is_openhands_witness :
    (⟨"OpenHands", ({"A"} : Finset String)⟩ : System).name = "OpenHands" :=
  notebook_source_is_openhands exOpenHandsData
    ⟨"OpenHands", ({"A"} : Finset String)⟩ (by decide) (by decide)

/-- The loaded features.csv as named columns of cells (`none` models a
NaN cell, which pandas treats as different from 0). -/
abbrev FeatureFrame := List (String × List Cell)

/-- Translated from the performance_gap notebook cell
`df = df.loc[:, (df != 0).any(axis=0)]`: keep exactly the columns with at
least one cell different from 0. -/
def dropZeroColumns (df : FeatureFrame) : FeatureFrame :=
  df.filter (fun col => col.2.any (fun v => decide (v ≠ some 0)))

/-- Translated from the performance_gap notebook's `good_metric`: the
column "instance_id" is rejected, names starting with "instance" or
"patch" are accepted, names ending with "diff" are accepted, everything
else is rejected. -/
def good_metric (metric : String) : Bool :=
  if metric = "instance_id" then false
  else if metric.startsWith "instance" || metric.startsWith "patch" then
    true
  else if metric.endsWith "diff" then true
  else false

/-- Translated from the notebook cell
`metrics = [column for column in df.columns if good_metric(column)]`,
run after the all-zero columns were dropped: the columns every
statistical test and classifier in the notebook receives (`df[metrics]`
throughout). -/
def metrics (df : FeatureFrame) : List String :=
  ((dropZeroColumns df).map Prod.fst).filter good_metric

/-- C9: a column name is in `metrics` exactly when the frame has a column
of that name with at least one cell different from 0 and the name passes
`good_metric`; and `good_metric` accepts exactly the names other than
"instance_id" that start with "instance", start with "patch", or end
with "diff". -/
theorem metrics_columns_spec (df : FeatureFrame) (c : String) :
    (c ∈ metrics df ↔
        ∃ vs : List Cell, (c, vs) ∈ df ∧
          vs.any (fun v => decide (v ≠ some 0)) = true ∧
          good_metric c = true) ∧
      (∀ m : String,
        good_metric m =
          (decide (m ≠ "instance_id") &&
            (m.startsWith "instance" || m.startsWith "patch" ||
              m.endsWith "diff"))) := by
  constructor
  · rw [metrics, List.mem_filter, List.mem_map]
    constructor
    · rintro ⟨⟨col, hcol, hfst⟩, hgood⟩
      rw [dropZeroColumns, List.mem_filter] at hcol
      exact ⟨col.2, by rw [← hfst]; exact hcol.1, hcol.2, hgood⟩
    · rintro ⟨vs, hmem, hnz, hgood⟩
      refine ⟨⟨(c, vs), ?_, rfl⟩, hgood⟩
      rw [dropZeroColumns, List.mem_filter]
      exact ⟨hmem, hnz⟩
  · intro m
    by_cases hid : m = "instance_id"
    · subst hid
      decide
    · cases h1 : m.startsWith "instance" <;>
        cases h2 : m.startsWith "patch" <;>
        cases h3 : m.endsWith "diff" <;>
        simp [good_metric, hid, h1, h2, h3]

/-- One row of the persisted localization.csv: the system that produced
it, the resolved flag, and the per-instance localization scores the
patch-quality notebook aggregates. -/
structure LocalizationRow where
  system : String
  resolved : Bool
  missing_files : ℚ
  file_match : ℚ
  file_precision : ℚ
  function_match : ℚ
  function_precision : ℚ
  class_match : ℚ
  class_precision : ℚ

/-- Translated from the patch_quality notebook's
`df.groupby("system").agg({"resolved": "sum", ...})`: the sum of the
resolved flags of the rows belonging to one system. -/
def resolvedSum (rows : List LocalizationRow) (sys : String) : ℕ :=
  (rows.filter (fun r => r.system == sys)).countP (fun r => r.resolved)

/-- Translated from the patch_quality notebook cell
`agg["resolution_rate"] = agg["resolved"] / 500`: the resolved sum
divided by the fixed constant 500. -/
def resolution_rate (rows : List LocalizationRow) (sys : String) : ℚ :=
  (resolvedSum rows sys : ℚ) / 500

/-- The patch-quality pipeline computes the rate from the localization
table alone: the loaded Data is never consulted for it. -/
def patchQualityRate (_loaded : Data) (rows : List LocalizationRow)
    (sys : String) : ℚ :=
  resolution_rate rows sys

/-- C10: each system's resolution rate is the sum of its resolved flags
divided by the constant 500 — not by the dataset size and not by the
system's row count — and it is the same whatever Data was loaded. -/
theorem resolution_rate_spec (d₁ d₂ : Data) (rows : List LocalizationRow)
    (sys : String) :
    patchQualityRate d₁ rows sys =
        ((rows.countP (fun r => r.system == sys && r.resolved)) : ℚ) / 500 ∧
      patchQualityRate d₁ rows sys = patchQualityRate d₂ rows sys := by
  refine ⟨?_, rfl⟩
  rw [patchQualityRate, resolution_rate, resolvedSum, List.countP_filter]
  congr 2
  refine List.countP_congr ?_
  intro r _
  rw [Bool.and_comm]

end AgentAnalysis
